import Mathlib

/-
Verification of the Static Memory Pool (SMP) allocator.

The development shallowly embeds smp.c.  Memory addresses are natural
numbers (0 plays the role of the null pointer).  A pool state carries the
pool metadata together with a header heap (address to block header) and a
sparse payload byte heap (absent address means the byte is 0, matching the
zero-initialized backing buffer).  All machine arithmetic that can wrap is
made explicit: the 31-bit packed size field, the 32-bit offset field and
the 64-bit size_t multiplication in smp_calloc.
-/

/-- Modelled from the spec: the integrity tag sentinel SMP_MAGIC.  The header
file defining it for the tagged-header variant is not under src; the spec only
requires a fixed sentinel value, so any fixed nonzero constant is faithful. -/
def SMP_MAGIC : Nat := 0x534D5021

/-- Modelled from the spec: sizeof(smp_block_t), the fixed-size header.  The
tagged variant's struct (integrity tag, packed 31-bit size plus flag bit, and
32-bit next offset) occupies three 32-bit words. -/
def blockHeaderSize : Nat := 12

/-- SIZE_MAX for the 64-bit size_t used by smp_calloc's overflow guard. -/
def SIZE_MAX : Nat := 2 ^ 64 - 1

/-- One block header: integrity tag, payload size (31-bit field), free flag
(1-bit field) and the relative offset to the next free block (uint32_t). -/
structure Blk where
  magic : Nat
  size : Nat
  free : Nat
  offset : Nat
deriving DecidableEq

/-- The all-zero header, the value read from never-written (zero) memory and
the value memset(b, 0, sizeof(smp_block_t)) stores. -/
def zeroBlk : Blk := { magic := 0, size := 0, free := 0, offset := 0 }

/-- A pool state: base address of the backing buffer, its capacity, the head
pointer of the free list (0 encodes NULL), the header heap and the sparse
payload byte heap. -/
structure Pool where
  memory : Nat
  size : Nat
  head : Nat
  blocks : List (Nat × Blk)
  data : List (Nat × Nat)
deriving DecidableEq

/-- Read the header stored at address a (all-zero when none was written,
matching the zero-initialized buffer). -/
def getBlk (p : Pool) (a : Nat) : Blk := (p.blocks.lookup a).getD zeroBlk

/-- Store a header at address a (association-list heap write; lookup sees the
most recent entry). -/
def setBlk (p : Pool) (a : Nat) (b : Blk) : Pool :=
  { p with blocks := (a, b) :: p.blocks }

/-- Read the payload byte at address a (0 when never written). -/
def getByte (p : Pool) (a : Nat) : Nat := (p.data.lookup a).getD 0

/-- Store a payload byte (truncated to 8 bits). -/
def setByte (p : Pool) (a v : Nat) : Pool :=
  { p with data := (a, v % 256) :: p.data }

/-- memset(a, 0, n) on the payload byte heap. -/
def zeroRange (p : Pool) (a : Nat) : Nat → Pool
  | 0 => p
  | n + 1 => zeroRange (setByte p a 0) (a + 1) n

/-- Models a client of the allocator storing one byte into memory it owns.
This is not an operation of smp.c; it represents the environment writing to a
payload returned by smp_alloc, which the library's contract permits. -/
def clientWrite (p : Pool) (a v : Nat) : Pool := setByte p a v

/-- From smp.c: (smp_block_t*)((smp_byte_t*)relative_to + offset ?: NULL).
The GNU ?: applies to the sum, which is nonzero whenever relative_to is a
valid (nonzero) pointer, even when offset is 0. -/
def _smp_get_block_from_offset (offset relative_to : Nat) : Nat :=
  if relative_to + offset = 0 then 0 else relative_to + offset

/-- From smp.c: a > b ? a - b : 0, truncated to uint32_t. -/
def _smp_get_relative_offset (block relative_to : Nat) : Nat :=
  (if relative_to < block then block - relative_to else 0) % 2 ^ 32

/-- From smp.c: payload pointer of a block. -/
def _smp_get_ptr_from_block (block : Nat) : Nat := block + blockHeaderSize

/-- From smp.c: header address of a user pointer. -/
def _smp_get_block_from_ptr (ptr : Nat) : Nat := ptr - blockHeaderSize

/-- From smp.c: block->magic == SMP_MAGIC. -/
def _smp_validate_block (p : Pool) (block : Nat) : Bool :=
  (getBlk p block).magic == SMP_MAGIC

/-- From smp.c _smp_coalesce_blocks: grow a by b plus one header, update a's
offset to the relative offset (from a) of b's successor unless that relative
offset is zero, and memset b's header to zero.  Note that when b->offset is 0,
b's "successor" is b itself, so a's offset ends up pointing at the absorbed
header. -/
def _smp_coalesce_blocks (p : Pool) (a b : Nat) : Pool :=
  let ba := getBlk p a
  let bb := getBlk p b
  let p1 := setBlk p a { ba with size := (ba.size + bb.size + blockHeaderSize) % 2 ^ 31 }
  let r := _smp_get_relative_offset (_smp_get_block_from_offset bb.offset b) a
  let p2 := setBlk p1 a
    { getBlk p1 a with offset := if r ≠ 0 then r else (getBlk p1 a).offset }
  setBlk p2 b zeroBlk

/-- The body of smp_alloc once a fitting candidate block is found (smp.c lines
56-85): optional split, free-list unlink, mark allocated, return payload. -/
def allocFound (p : Pool) (sz block prev : Nat) : Pool × Nat :=
  let bb := getBlk p block
  let remaining := bb.size - sz
  let nb := if blockHeaderSize < remaining
            then _smp_get_block_from_offset (sz + blockHeaderSize) block else 0
  let p1 :=
    if blockHeaderSize < remaining then
      let hdr : Blk :=
        { magic := SMP_MAGIC
          size := (remaining - blockHeaderSize) % 2 ^ 31
          free := 1
          offset := _smp_get_relative_offset (_smp_get_block_from_offset bb.offset block) nb }
      setBlk (setBlk p nb hdr) block { bb with size := sz % 2 ^ 31 }
    else p
  let p2 :=
    if prev ≠ 0 then
      setBlk p1 prev { getBlk p1 prev with offset := _smp_get_relative_offset nb prev }
    else if nb ≠ 0 then { p1 with head := nb }
    else { p1 with head := _smp_get_block_from_offset (getBlk p1 block).offset block }
  let p3 := setBlk p2 block { getBlk p2 block with free := 0, offset := 0 }
  (p3, _smp_get_ptr_from_block block)

/-- The while loop of smp_alloc (smp.c lines 47-86), with explicit fuel since
the C loop does not terminate on every input: none means the loop was still
running after the given number of iterations. -/
def allocLoop (p : Pool) (sz : Nat) : Nat → Nat → Nat → Option (Pool × Nat)
  | 0, _, _ => none
  | fuel + 1, block, prev =>
    if block = 0 then some (p, 0)
    else if (getBlk p block).size < sz then
      allocLoop p sz fuel (_smp_get_block_from_offset (getBlk p block).offset block) block
    else some (allocFound p sz block prev)

/-- smp_alloc.  The pool argument is an Option: none is the NULL pool handle.
The result is none when the internal walk ran out of fuel (the C code loops),
and some (pool state, pointer) otherwise, pointer 0 being the NULL return. -/
def smp_alloc (fuel : Nat) (pool : Option Pool) (sz : Nat) : Option (Option Pool × Nat) :=
  match pool with
  | none => some (none, 0)
  | some p => (allocLoop p sz fuel p.head 0).map (fun r => (some r.1, r.2))

/-- smp_calloc (smp.c lines 91-97): overflow guard then delegation to
smp_alloc with the size_t (mod 2^64) product. -/
def smp_calloc (fuel : Nat) (pool : Option Pool) (nitems sz : Nat) :
    Option (Option Pool × Nat) :=
  match pool with
  | none => some (none, 0)
  | some p =>
    if nitems ≠ 0 ∧ SIZE_MAX / nitems < sz then some (some p, 0)
    else smp_alloc fuel (some p) (nitems * sz % 2 ^ 64)

/-- The predecessor-search loop of smp_dealloc (smp.c lines 142-149), fueled;
returns (prev, next) where next is 0 when the loop never produced one. -/
def deallocWalk (p : Pool) (block : Nat) : Nat → Nat → Nat → Option (Nat × Nat)
  | 0, _, _ => none
  | fuel + 1, prev, next =>
    if (getBlk p prev).offset = 0 then some (prev, next)
    else
      let nx := _smp_get_block_from_offset (getBlk p prev).offset prev
      if block < nx then some (prev, nx)
      else deallocWalk p block fuel nx nx

/-- smp_dealloc (smp.c lines 99-178).  Returns none only when the internal
walk ran out of fuel; otherwise some of the resulting pool handle. -/
def smp_dealloc (fuel : Nat) (pool : Option Pool) (ptr : Nat) : Option (Option Pool) :=
  match pool with
  | none => some none
  | some p =>
    if ptr = 0 then some (some p)
    else if ptr < p.memory ∨ p.memory + p.size ≤ ptr then some (some p)
    else
      let block := _smp_get_block_from_ptr ptr
      if _smp_validate_block p block then
        let p0 := setBlk p block { getBlk p block with free := 1 }
        let p1 := zeroRange p0 ptr (getBlk p0 block).size
        if p1.head = 0 then some (some { p1 with head := block })
        else if block < p1.head then
          if block + blockHeaderSize + (getBlk p1 block).size = p1.head then
            let p2 := _smp_coalesce_blocks p1 block p1.head
            let p3 := if (getBlk p2 block).size = p2.size - blockHeaderSize
                      then setBlk p2 block { getBlk p2 block with offset := 0 }
                      else p2
            some (some { p3 with head := block })
          else
            let p2 := setBlk p1 block
              { getBlk p1 block with offset := _smp_get_relative_offset p1.head block }
            some (some { p2 with head := block })
        else
          match deallocWalk p1 block fuel p1.head 0 with
          | none => none
          | some (prev, nxt) =>
            let merged := prev + blockHeaderSize + (getBlk p1 prev).size = block
            let p2 := if merged then _smp_coalesce_blocks p1 prev block else p1
            let blk2 := if merged then prev else block
            if nxt = 0 then some (some p2)
            else if blk2 + blockHeaderSize + (getBlk p2 blk2).size = nxt then
              let p3 := _smp_coalesce_blocks p2 blk2 nxt
              if (getBlk p3 blk2).size = p3.size - blockHeaderSize then
                some (some (setBlk p3 blk2 { getBlk p3 blk2 with offset := 0 }))
              else if blk2 ≠ prev then
                some (some (setBlk p3 prev
                  { getBlk p3 prev with offset := _smp_get_relative_offset blk2 prev }))
              else some (some p3)
            else
              some (some (setBlk p2 blk2
                { getBlk p2 blk2 with offset := _smp_get_relative_offset nxt blk2 }))
      else some (some p)

/-- smp_size (smp.c lines 180-190). -/
def smp_size (pool : Option Pool) (ptr : Nat) : Nat :=
  match pool with
  | none => 0
  | some p =>
    if ptr = 0 then 0
    else if ptr < p.memory ∨ p.memory + p.size ≤ ptr then 0
    else if _smp_validate_block p (_smp_get_block_from_ptr ptr) then
      (getBlk p (_smp_get_block_from_ptr ptr)).size
    else 0

/-- Modelled from the spec and the SMP_POOL macro: a freshly created pool is a
zero-filled buffer of the given capacity holding one free block whose payload
is the capacity minus one header, with the free list head pointing at it.  The
macro for the tagged-header variant is not under src; the tag is written at
block creation per the spec. -/
def smp_pool_init (base cap : Nat) : Pool :=
  { memory := base
    size := cap
    head := base
    blocks := [(base,
      { magic := SMP_MAGIC, size := (cap - blockHeaderSize) % 2 ^ 31, free := 1, offset := 0 })]
    data := [] }

/-- The free-list traversal described by the spec: from a start address,
follow next_free_offset deltas, stopping at a zero offset.  Fueled so that it
is total even on corrupted states. -/
def freeList (p : Pool) : Nat → Nat → List Nat
  | 0, _ => []
  | fuel + 1, b =>
    if b = 0 then []
    else b :: (if (getBlk p b).offset = 0 then []
               else freeList p fuel (b + (getBlk p b).offset))

/-- Run one allocation and keep only the resulting pool handle. -/
def allocStep (fuel : Nat) (p : Option Pool) (sz : Nat) : Option Pool :=
  match smp_alloc fuel p sz with
  | some (q, _) => q
  | none => none

/-- Run one deallocation and keep only the resulting pool handle. -/
def deallocStep (fuel : Nat) (p : Option Pool) (ptr : Nat) : Option Pool :=
  match smp_dealloc fuel p ptr with
  | some q => q
  | none => none

/-- The pointer returned by an allocation result. -/
def resultPtr (r : Option (Option Pool × Nat)) : Nat :=
  match r with
  | some (_, q) => q
  | none => 0

/-- The pool state inside an allocation result. -/
def resultPool (r : Option (Option Pool × Nat)) : Pool :=
  match r with
  | some (some p, _) => p
  | _ => smp_pool_init 0 0

/-- Every header currently stored has its 31-bit size field in range; true of
every state the allocator itself can produce, since all size writes are
reduced mod 2^31. -/
def sizesBounded (p : Pool) : Bool := p.blocks.all (fun e => e.2.size < 2 ^ 31)

/-! ## Basic heap lemmas -/

lemma getBlk_setBlk_same (p : Pool) (a : Nat) (b : Blk) : getBlk (setBlk p a b) a = b := by
  simp [getBlk, setBlk, List.lookup]

lemma getBlk_setBlk_ne (p : Pool) (a k : Nat) (b : Blk) (h : k ≠ a) :
    getBlk (setBlk p a b) k = getBlk p k := by
  have hb : (k == a) = false := by simp [h]
  simp [getBlk, setBlk, List.lookup, hb]

lemma getBlk_setHead (p : Pool) (h x : Nat) : getBlk { p with head := h } x = getBlk p x := rfl

lemma _smp_get_block_from_offset_eq (o b : Nat) (hb : b ≠ 0) :
    _smp_get_block_from_offset o b = b + o := by
  unfold _smp_get_block_from_offset
  have h0 : ¬ (b + o = 0) := by omega
  simp [h0]

lemma mem_of_lookup_eq_some {l : List (Nat × Blk)} {a : Nat} {b : Blk}
    (h : List.lookup a l = some b) : (a, b) ∈ l := by
  induction l with
  | nil => cases h
  | cons e t ih =>
    rcases e with ⟨x, v⟩
    by_cases hx : a = x
    · subst hx
      simp [List.lookup] at h
      simp [h]
    · have hx2 : (a == x) = false := by simp [hx]
      simp only [List.lookup, hx2] at h
      exact List.mem_cons_of_mem _ (ih h)

lemma getBlk_size_lt_of_bounded (p : Pool) (h : sizesBounded p = true) (a : Nat) :
    (getBlk p a).size < 2 ^ 31 := by
  unfold sizesBounded at h
  unfold getBlk
  cases hl : List.lookup a p.blocks with
  | none => simp [zeroBlk]
  | some b =>
    have hmem := mem_of_lookup_eq_some hl
    have := List.all_eq_true.mp h _ hmem
    simpa using this

/-! ## Non-termination of the allocation walk

In _smp_get_block_from_offset the GNU elvis operator tests the sum
relative_to + offset, which is never NULL, so a block whose
next_free_offset is 0 is its own successor and the first-fit walk can
never leave it. -/

lemma allocLoop_stuck (p : Pool) (sz block : Nat) (hb : block ≠ 0)
    (hs : (getBlk p block).size < sz) (ho : (getBlk p block).offset = 0) :
    ∀ fuel prev, allocLoop p sz fuel block prev = none := by
  intro fuel
  induction fuel with
  | zero => intro prev; rfl
  | succ n ih =>
    intro prev
    have hnext : _smp_get_block_from_offset (getBlk p block).offset block = block := by
      rw [ho, _smp_get_block_from_offset_eq 0 block hb]
      omega
    simp only [allocLoop, if_neg hb, if_pos hs, hnext]
    exact ih block

/-- C2: the claim that smp_alloc, smp_calloc, smp_dealloc and smp_size always
terminate is refuted: on a fresh pool of capacity 64 (one free block of
payload 52 whose next_free_offset is 0), smp_alloc with request 100 never
returns, whatever iteration budget it is given — the walk revisits the same
block forever because an offset of 0 resolves to the block itself rather than
to NULL. -/
theorem C2_alloc_never_terminates (fuel : Nat) :
    smp_alloc fuel (some (smp_pool_init 1000 64)) 100 = none := by
  have h := allocLoop_stuck (smp_pool_init 1000 64) 100 1000 (by decide) (by decide) (by decide) fuel 0
  show (allocLoop (smp_pool_init 1000 64) 100 fuel (smp_pool_init 1000 64).head 0).map
    (fun r => (some r.1, r.2)) = none
  rw [show (smp_pool_init 1000 64).head = 1000 from rfl, h]
  rfl

/-- C3: the claim that smp_alloc returns NULL and leaves the pool unchanged
when no free block is large enough is refuted: on a fresh pool of capacity 64
(sole free block of payload 52), a request of 53 makes smp_alloc loop forever
instead of returning the failure sentinel, for every iteration budget. -/
theorem C3_no_fit_does_not_return (fuel : Nat) :
    smp_alloc fuel (some (smp_pool_init 1000 64)) 53 = none := by
  have h := allocLoop_stuck (smp_pool_init 1000 64) 53 1000 (by decide) (by decide) (by decide) fuel 0
  show (allocLoop (smp_pool_init 1000 64) 53 fuel (smp_pool_init 1000 64).head 0).map
    (fun r => (some r.1, r.2)) = none
  rw [show (smp_pool_init 1000 64).head = 1000 from rfl, h]
  rfl

/-! ## Concrete reachable states used to refute free-list claims -/

/-- Reachable state for C1: from a fresh pool of capacity 200 at base 1000,
allocate four 20-byte blocks (payloads 1012, 1044, 1076, 1108), release the
first (ptr 1012, a clean new-head insertion), then release the third
(ptr 1076).  The last release takes the middle-splice path of smp_dealloc. -/
def poolC1 : Pool :=
  (deallocStep 30 (deallocStep 30 (allocStep 30 (allocStep 30 (allocStep 30 (allocStep 30
    (some (smp_pool_init 1000 200)) 20) 20) 20) 20) 1012) 1076).getD (smp_pool_init 0 0)

/-- C1: the free-list invariant is not preserved by smp_dealloc.  In poolC1
the block at 1064 is marked free, yet the traversal of the free list from the
pool head visits only 1000 and 1128: the splice path never updates the
predecessor's next_free_offset to point at the newly freed block (contrary to
the source's own comment), so a free block is missing from the traversal
instead of appearing exactly once. -/
theorem C1_free_list_invariant_broken :
    (getBlk poolC1 1064).free = 1 ∧
    freeList poolC1 10 poolC1.head = [1000, 1128] ∧
    1064 ∉ freeList poolC1 10 poolC1.head := by decide

/-- Reachable state for C4: fresh pool of capacity 300 at base 1000; allocate
13, 20, 20, 20 bytes (headers at 1000, 1025, 1057, 1089; remainder free block
at 1121); release ptr 1069 (header 1057) then ptr 1012 (header 1000), giving
the free list 1000 -> 1057 -> 1121; then allocate 20 bytes, which is an exact
fit for the candidate 1057, whose predecessor is 1000 and successor 1121. -/
def poolC4 : Pool :=
  (allocStep 30 (deallocStep 30 (deallocStep 30 (allocStep 30 (allocStep 30 (allocStep 30
    (allocStep 30 (some (smp_pool_init 1000 300)) 13) 20) 20) 20) 1069) 1012) 20).getD
    (smp_pool_init 0 0)

/-- C4: the unlinking claim is refuted.  The candidate 1057 was removed
without a split and had successor 1121, so per the claim the predecessor's
next_free_offset should point at 1121; instead smp_alloc stores
_smp_get_relative_offset(NULL, prev) = 0, terminating the free list at 1000
and stranding the still-free block 1121 outside the traversal. -/
theorem C4_unlink_drops_successor :
    (getBlk poolC4 1000).offset = 0 ∧
    (getBlk poolC4 1121).free = 1 ∧
    (getBlk poolC4 1057).free = 0 ∧
    freeList poolC4 10 poolC4.head = [1000] := by decide

/-- Reachable state for C5: fresh pool of capacity 200 at base 1000; allocate
20, 20, 20 (headers 1000, 1032, 1064; remainder free at 1096 with no
successor); release ptr 1012 (free list 1000 -> 1096); release ptr 1076
(header 1064), which is memory-adjacent to the free block 1096, triggering
the forward coalesce in smp_dealloc. -/
def poolC5 : Pool :=
  (deallocStep 30 (deallocStep 30 (allocStep 30 (allocStep 30 (allocStep 30
    (some (smp_pool_init 1000 200)) 20) 20) 20) 1012) 1076).getD (smp_pool_init 0 0)

/-- C5: the coalescing claim is refuted.  Merging 1064 with its adjacent
successor 1096 (which had no successor of its own) should leave the merged
block's link "none"; instead _smp_coalesce_blocks stores offset 32, i.e. a
link to 1096 itself — the absorbed, memset-to-zero header — so the free list
traversal 1000 -> 1064 -> 1096 still contains the absorbed address. -/
theorem C5_dangling_link_to_absorbed_block :
    (getBlk poolC5 1064).offset = 32 ∧
    1064 + (getBlk poolC5 1064).offset = 1096 ∧
    getBlk poolC5 1096 = zeroBlk ∧
    freeList poolC5 10 poolC5.head = [1000, 1064, 1096] := by decide

/-- State for C6: fresh pool of capacity 64 at base 1000 (sole free block of
payload 52).  smp_alloc 40 is an exact-enough fit (leftover 12 does not
exceed one header), so no split happens and — candidate first and last —
pool->head is redirected to the candidate itself, which is then marked
allocated.  The client stores byte 7 into its own payload at 1012. -/
def poolC6 : Option Pool :=
  (allocStep 30 (some (smp_pool_init 1000 64)) 40).map (fun p => clientWrite p 1012 7)

/-- Result of the second allocation for C6: smp_alloc 1 on poolC6. -/
def resC6 : Option (Option Pool × Nat) := smp_alloc 30 poolC6 1

/-- C6: the all-zero-payload claim is refuted.  The first allocation returns
payload 1012 but leaves free_head pointing at the allocated block 1000, so
the second allocation (request 1) hands out the same block again: it succeeds
with pointer 1012 and recorded payload size 1, and the single payload byte at
1012 holds the client's value 7, not zero. -/
theorem C6_reallocated_payload_not_zero :
    resultPtr (smp_alloc 30 (some (smp_pool_init 1000 64)) 40) = 1012 ∧
    (Option.map Pool.head poolC6) = some 1000 ∧
    resultPtr resC6 = 1012 ∧
    (getBlk (resultPool resC6) 1000).size = 1 ∧
    getByte (resultPool resC6) 1012 = 7 := by decide

/-- Reachable state for C7: fresh pool of capacity 40 at base 1000; allocate
4 bytes (payload 1012), then release it.  The release coalesces the block
with the adjacent remainder back into one fully-free block at 1000 whose
integrity tag is intact. -/
def poolC7 : Pool :=
  (deallocStep 30 (allocStep 30 (some (smp_pool_init 1000 40)) 4) 1012).getD
    (smp_pool_init 0 0)

/-- Pool state after a second smp_dealloc of the already-released ptr 1012. -/
def poolC7b : Pool := (deallocStep 30 (some poolC7) 1012).getD (smp_pool_init 0 0)

/-- C7 counterexample: a second smp_dealloc of the already-released pointer
1012 is NOT rejected by the integrity-tag check.  In poolC7 the block at 1000
is already free, yet _smp_validate_block still accepts the pointer's header,
because smp_dealloc leaves the tag intact on released blocks — the check
cannot distinguish a double free from a first free. -/
theorem C7_double_free_not_rejected :
    (getBlk poolC7 1000).free = 1 ∧
    _smp_validate_block poolC7 (_smp_get_block_from_ptr 1012) = true := by decide

set_option maxHeartbeats 1600000 in
/-- C7 amended: a second smp_dealloc with a pointer that was already released
(and not reallocated since) passes the header validation — the integrity tag
remains intact after release, so the tag check does not reject double frees —
and in this double-free state the pool is nevertheless left observationally
unchanged: same free head, same header at 1000, same free-list traversal, and
the payload bytes are still all zero. -/
theorem C7_double_free_observably_unchanged :
    _smp_validate_block poolC7 (_smp_get_block_from_ptr 1012) = true ∧
    poolC7b.head = poolC7.head ∧
    getBlk poolC7b 1000 = getBlk poolC7 1000 ∧
    getBlk poolC7b 1016 = getBlk poolC7 1016 ∧
    freeList poolC7b 10 poolC7b.head = freeList poolC7 10 poolC7.head ∧
    (List.range 28).all (fun i => getByte poolC7b (1012 + i) == 0) = true := by decide

/-! ## Guard behavior on invalid inputs -/

/-- C8: for a null pointer, a pointer outside [buffer_start, buffer_start +
capacity), or a pointer whose header fails the integrity-tag validation,
smp_dealloc returns the pool completely unchanged and smp_size returns the
zero sentinel; and a null pool handle makes smp_alloc and smp_calloc return
the failure sentinel with no state to mutate. -/
theorem C8_invalid_inputs_rejected (fuel : Nat) (p : Pool) (ptr sz n m : Nat)
    (h : ptr = 0 ∨ ptr < p.memory ∨ p.memory + p.size ≤ ptr ∨
         _smp_validate_block p (_smp_get_block_from_ptr ptr) = false) :
    smp_dealloc fuel (some p) ptr = some (some p) ∧
    smp_size (some p) ptr = 0 ∧
    smp_alloc fuel none sz = some (none, 0) ∧
    smp_calloc fuel none n m = some (none, 0) := by
  refine ⟨?_, ?_, rfl, rfl⟩
  · by_cases h1 : ptr = 0
    · simp [smp_dealloc, h1]
    · by_cases h2 : ptr < p.memory ∨ p.memory + p.size ≤ ptr
      · simp [smp_dealloc, h1, h2]
      · have h4 : _smp_validate_block p (_smp_get_block_from_ptr ptr) = false := by tauto
        simp [smp_dealloc, h1, h2, h4]
  · by_cases h1 : ptr = 0
    · simp [smp_size, h1]
    · by_cases h2 : ptr < p.memory ∨ p.memory + p.size ≤ ptr
      · simp [smp_size, h1, h2]
      · have h4 : _smp_validate_block p (_smp_get_block_from_ptr ptr) = false := by tauto
        simp [smp_size, h1, h2, h4]

/-- Witness for C8 at a concrete input: the null pointer on a fresh pool of
capacity 64 at base 1000, with a size request of 5 and calloc arguments 2 and
3 for the null-pool conjuncts. -/
theorem C8_invalid_inputs_rejected_witness :
    smp_dealloc 3 (some (smp_pool_init 1000 64)) 0 = some (some (smp_pool_init 1000 64)) ∧
    smp_size (some (smp_pool_init 1000 64)) 0 = 0 ∧
    smp_alloc 3 none 5 = some (none, 0) ∧
    smp_calloc 3 none 2 3 = some (none, 0) :=
  C8_invalid_inputs_rejected 3 (smp_pool_init 1000 64) 0 5 2 3 (Or.inl rfl)

/-! ## The smp_calloc overflow guard -/

/-- C9: when nitems is nonzero and sz exceeds SIZE_MAX / nitems, smp_calloc
returns the failure sentinel with the pool unchanged and without attempting an
allocation; otherwise the product nitems * sz cannot wrap (it is at most
SIZE_MAX) and smp_calloc returns exactly the result of smp_alloc on the exact
product. -/
theorem C9_overflow_guard (fuel : Nat) (p : Pool) (nitems sz : Nat) :
    (nitems ≠ 0 ∧ SIZE_MAX / nitems < sz →
      smp_calloc fuel (some p) nitems sz = some (some p, 0)) ∧
    (¬ (nitems ≠ 0 ∧ SIZE_MAX / nitems < sz) →
      nitems * sz ≤ SIZE_MAX ∧
      smp_calloc fuel (some p) nitems sz = smp_alloc fuel (some p) (nitems * sz)) := by
  constructor
  · intro h
    simp [smp_calloc, h]
  · intro h
    have hle : nitems * sz ≤ SIZE_MAX := by
      by_cases hn : nitems = 0
      · subst hn; simp
      · have hsz : sz ≤ SIZE_MAX / nitems := Nat.le_of_not_lt (fun hc => h ⟨hn, hc⟩)
        have := (Nat.le_div_iff_mul_le (Nat.pos_of_ne_zero hn)).mp hsz
        calc nitems * sz = sz * nitems := Nat.mul_comm nitems sz
        _ ≤ SIZE_MAX := this
    have hlt : nitems * sz < 18446744073709551616 := by
      have h2 : SIZE_MAX < 18446744073709551616 := by decide
      omega
    refine ⟨hle, ?_⟩
    simp [smp_calloc, h]
    rw [Nat.mod_eq_of_lt hlt]

/-- Witness for C9 at concrete inputs: on a fresh pool of capacity 64 at base
1000, calloc with nitems = 2^63 and sz = 4 trips the division guard (the
product would wrap), while calloc with nitems = 3 and sz = 5 equals alloc of
the exact product 15. -/
theorem C9_overflow_guard_witness :
    smp_calloc 30 (some (smp_pool_init 1000 64)) (2 ^ 63) 4 =
      some (some (smp_pool_init 1000 64), 0) ∧
    smp_calloc 30 (some (smp_pool_init 1000 64)) 3 5 =
      smp_alloc 30 (some (smp_pool_init 1000 64)) 15 :=
  ⟨(C9_overflow_guard 30 (smp_pool_init 1000 64) (2 ^ 63) 4).1 ⟨by decide, by decide⟩,
   ((C9_overflow_guard 30 (smp_pool_init 1000 64) 3 5).2 (by decide)).2⟩

/-! ## Size bounds on allocated blocks -/

lemma allocFound_snd (p : Pool) (sz block prev : Nat) :
    (allocFound p sz block prev).2 = block + blockHeaderSize := rfl

lemma allocFound_fst_size (p : Pool) (sz block prev : Nat) (hb : block ≠ 0) :
    (getBlk (allocFound p sz block prev).1 block).size =
      (if blockHeaderSize < (getBlk p block).size - sz then sz % 2 ^ 31
       else (getBlk p block).size) := by
  have hnb : _smp_get_block_from_offset (sz + blockHeaderSize) block
      = block + (sz + blockHeaderSize) := _smp_get_block_from_offset_eq _ _ hb
  by_cases hsplit : blockHeaderSize < (getBlk p block).size - sz
  · rw [if_pos hsplit]
    simp only [allocFound, if_pos hsplit, hnb, getBlk_setBlk_same]
    by_cases hp : prev ≠ 0
    · rw [if_pos hp]
      by_cases hpb : block = prev
      · subst hpb
        rw [getBlk_setBlk_same, getBlk_setBlk_same]
      · rw [getBlk_setBlk_ne _ _ _ _ hpb, getBlk_setBlk_same]
    · rw [if_neg hp]
      have hnbne : block + (sz + blockHeaderSize) ≠ 0 := by omega
      rw [if_pos hnbne, getBlk_setHead, getBlk_setBlk_same]
  · rw [if_neg hsplit]
    simp only [allocFound, if_neg hsplit, getBlk_setBlk_same]
    by_cases hp : prev ≠ 0
    · rw [if_pos hp]
      by_cases hpb : block = prev
      · subst hpb
        rw [getBlk_setBlk_same]
      · rw [getBlk_setBlk_ne _ _ _ _ hpb]
    · rw [if_neg hp]
      have h0 : ¬ ((0 : Nat) ≠ 0) := by omega
      simp only [h0, if_false]
      rw [getBlk_setHead]

lemma allocLoop_size (p : Pool) (sz : Nat) (hbd : sizesBounded p = true) :
    ∀ fuel block prev pp q, allocLoop p sz fuel block prev = some (pp, q) → q ≠ 0 →
      sz ≤ (getBlk pp (_smp_get_block_from_ptr q)).size ∧
      (getBlk pp (_smp_get_block_from_ptr q)).size ≤ sz + blockHeaderSize := by
  intro fuel
  induction fuel with
  | zero => intro block prev pp q h hq; cases h
  | succ n ih =>
    intro block prev pp q h hq
    by_cases hb0 : block = 0
    · simp only [allocLoop, if_pos hb0] at h
      cases h
      exact absurd rfl hq
    · by_cases hlt : (getBlk p block).size < sz
      · simp only [allocLoop, if_neg hb0, if_pos hlt] at h
        exact ih _ _ _ _ h hq
      · simp only [allocLoop, if_neg hb0, if_neg hlt] at h
        have hpair : allocFound p sz block prev = (pp, q) := Option.some.inj h
        have hpp : pp = (allocFound p sz block prev).1 := by rw [hpair]
        have hq3 : q = (allocFound p sz block prev).2 := by rw [hpair]
        rw [hpp, hq3, allocFound_snd]
        have hblk : _smp_get_block_from_ptr (block + blockHeaderSize) = block := by
          unfold _smp_get_block_from_ptr
          omega
        rw [hblk]
        rw [allocFound_fst_size p sz block prev hb0]
        have hsle : sz ≤ (getBlk p block).size := Nat.le_of_not_lt hlt
        have hs31 : (getBlk p block).size < 2 ^ 31 := getBlk_size_lt_of_bounded p hbd block
        by_cases hsplit : blockHeaderSize < (getBlk p block).size - sz
        · rw [if_pos hsplit]
          have : sz % 2 ^ 31 = sz := Nat.mod_eq_of_lt (by omega)
          omega
        · rw [if_neg hsplit]
          omega

/-- C10: a successful smp_alloc for n bytes records a payload size between n
and n + one header in the returned block's header, over any pool whose stored
header sizes fit the 31-bit field (true of every state the allocator
produces): the candidate is shrunk to exactly n when the leftover strictly
exceeds one header, and otherwise keeps its original size, which then exceeds
n by at most one header of slack; when the returned pointer is in bounds and
passes validation, smp_size reports exactly that recorded size. -/
theorem C10_payload_size_bounds (fuel : Nat) (p pp : Pool) (n q : Nat)
    (hbd : sizesBounded p = true)
    (h : smp_alloc fuel (some p) n = some (some pp, q)) (hq : q ≠ 0) :
    (n ≤ (getBlk pp (_smp_get_block_from_ptr q)).size ∧
     (getBlk pp (_smp_get_block_from_ptr q)).size ≤ n + blockHeaderSize) ∧
    (¬ (q < pp.memory ∨ pp.memory + pp.size ≤ q) →
      _smp_validate_block pp (_smp_get_block_from_ptr q) = true →
      smp_size (some pp) q = (getBlk pp (_smp_get_block_from_ptr q)).size) := by
  have hloop : allocLoop p n fuel p.head 0 = some (pp, q) := by
    have hmap : (allocLoop p n fuel p.head 0).map (fun r => (some r.1, r.2))
        = some (some pp, q) := h
    cases hres : allocLoop p n fuel p.head 0 with
    | none => rw [hres] at hmap; cases hmap
    | some r =>
      rw [hres] at hmap
      rcases r with ⟨a, b⟩
      have hmap2 : (some ((some a : Option Pool), b) : Option (Option Pool × Nat))
          = some (some pp, q) := hmap
      have hp2 := Option.some.inj hmap2
      have ha : a = pp := Option.some.inj (congrArg Prod.fst hp2)
      have hb : b = q := congrArg Prod.snd hp2
      rw [ha, hb]
  constructor
  · exact allocLoop_size p n hbd fuel p.head 0 pp q hloop hq
  · intro hbnd hval
    show (if q = 0 then 0
          else if q < pp.memory ∨ pp.memory + pp.size ≤ q then 0
          else if _smp_validate_block pp (_smp_get_block_from_ptr q) = true then
            (getBlk pp (_smp_get_block_from_ptr q)).size
          else 0) =
        (getBlk pp (_smp_get_block_from_ptr q)).size
    rw [if_neg hq, if_neg hbnd, if_pos hval]

/-- Witness for C10: on a fresh pool of capacity 64 at base 1000, allocating
20 bytes succeeds with pointer 1012 and the recorded payload size is exactly
20, between 20 and 32, and smp_size agrees. -/
theorem C10_payload_size_bounds_witness :
    (20 ≤ (getBlk (resultPool (smp_alloc 30 (some (smp_pool_init 1000 64)) 20))
            (_smp_get_block_from_ptr 1012)).size ∧
     (getBlk (resultPool (smp_alloc 30 (some (smp_pool_init 1000 64)) 20))
            (_smp_get_block_from_ptr 1012)).size ≤ 20 + blockHeaderSize) ∧
    smp_size (some (resultPool (smp_alloc 30 (some (smp_pool_init 1000 64)) 20))) 1012 =
      (getBlk (resultPool (smp_alloc 30 (some (smp_pool_init 1000 64)) 20))
            (_smp_get_block_from_ptr 1012)).size :=
  have h := C10_payload_size_bounds 30 (smp_pool_init 1000 64)
    (resultPool (smp_alloc 30 (some (smp_pool_init 1000 64)) 20)) 20 1012
    (by decide) (by decide) (by decide)
  ⟨h.1, h.2 (by decide) (by decide)⟩

/-- Witness instantiating C2's statement at the concrete fuel value 5. -/
theorem C2_alloc_never_terminates_witness :
    smp_alloc 5 (some (smp_pool_init 1000 64)) 100 = none :=
  C2_alloc_never_terminates 5

/-- Witness instantiating C3's statement at the concrete fuel value 5. -/
theorem C3_no_fit_does_not_return_witness :
    smp_alloc 5 (some (smp_pool_init 1000 64)) 53 = none :=
  C3_no_fit_does_not_return 5
